import Mathlib

/-!
Shallow embedding of `src/generator.py` (audio energy-bar video generator)
and proofs about its feature extraction, per-style frame rendering and the
job orchestrator.

Modelling conventions:
* Python floats are modelled as exact rationals (ℚ); Python `int(x)` is
  `pyInt` (truncation toward zero) and Python `//` is `Int.fdiv` (floor
  division), matching Python semantics on negative operands.
* The values of irrational library functions used by the pipeline (the DFT
  cosine and sine tables, the analysis window, the mel filter-bank weights
  of `librosa.filters.mel`, `log10`, `sqrt`, `math.sin`) are parameters:
  theorems quantify over them, so each theorem holds in particular for the
  actual float tables.  The only pointwise identity baked into a
  definition is `abs 0 = 0` for complex magnitudes, which IEEE arithmetic
  guarantees exactly.
* `librosa.stft(y, hop_length=h, n_fft=2048)` uses centered framing and
  produces `1 + len(y) // h` frames (librosa documented behaviour); the
  frame content is the padded signal sliced at stride `h`.  Padding is
  modelled with zeros; for the silent-signal theorems every padding mode
  of librosa produces zeros there as well.
-/

namespace Generator

/-- Python `int(x)` applied to a float: truncation toward zero. -/
def pyInt (q : ℚ) : ℤ := if 0 ≤ q then ⌊q⌋ else ⌈q⌉

/-- `np.max` over a flat nonempty list of floats (0 on the empty list,
which `numpy` would reject; all uses here are on nonempty lists). -/
def listMax : List ℚ → ℚ
  | [] => 0
  | a :: l => l.foldl max a

/-- `np.min` over a flat nonempty list of floats. -/
def listMin : List ℚ → ℚ
  | [] => 0
  | a :: l => l.foldl min a

/-- The irrational numeric tables consumed by `extract_audio_features`,
supplied as parameters: `window j` is the analysis window of the STFT,
`dftCos k j` and `dftSin k j` the DFT twiddle tables, `melW sr b k` the
mel filter-bank weight of band `b` at frequency bin `k` for sample rate
`sr` (`librosa.filters.mel(sr=sr, n_fft=2048, n_mels=n_bands, fmin=0,
fmax=sr//2)`), `log10A` the float `log10` and `sqrtA` the float square
root on positive arguments. -/
structure ExtParams where
  window : ℕ → ℚ
  dftCos : ℕ → ℕ → ℚ
  dftSin : ℕ → ℕ → ℚ
  melW : ℕ → ℕ → ℕ → ℚ
  log10A : ℚ → ℚ
  sqrtA : ℚ → ℚ

/-- `n_fft=2048` fixed by `librosa.stft(y, hop_length=hop_length, n_fft=2048)`
at `src/generator.py:50`. -/
def n_fft : ℕ := 2048

/-- `hop_length = int(sr * (1.0 / fps))` from `src/generator.py:322`;
for the magnitudes involved the float expression equals `⌊sr / fps⌋`. -/
def hop_length (sr fps : ℕ) : ℕ := sr / fps

/-- Number of columns of `librosa.stft(y, hop_length=hop)` with centered
framing: `1 + len(y) // hop`. -/
def stftNumFrames (n hop : ℕ) : ℕ := 1 + n / hop

/-- `total_frames = features.shape[1]` as produced by the pipeline of
`src/generator.py:320-325` for `n` samples at sample rate `sr`. -/
def total_frames (n sr fps : ℕ) : ℕ := stftNumFrames n (hop_length sr fps)

/-- Centered padding of the signal done inside `librosa.stft`
(`n_fft // 2` samples on each side; zeros here, see module comment). -/
def padCenter (y : List ℚ) : List ℚ :=
  List.replicate (n_fft / 2) 0 ++ y ++ List.replicate (n_fft / 2) 0

/-- Analysis frame `t` of the padded signal: `n_fft` samples starting at
`t * hop`. -/
def frameAt (yp : List ℚ) (hop t : ℕ) : List ℚ := (yp.drop (t * hop)).take n_fft

/-- Index-aware dot product: `dotIdx g i [a, b, ...] = g i a + g (i+1) b + ...`. -/
def dotIdx (g : ℕ → ℚ → ℚ) : ℕ → List ℚ → ℚ
  | _, [] => 0
  | i, a :: l => g i a + dotIdx g (i + 1) l

/-- Magnitude of the complex number `re + im*I` as computed by `np.abs`:
exactly 0 at 0 (IEEE `sqrt 0 = 0`), the float square root elsewhere. -/
def cAbs (sqrtA : ℚ → ℚ) (re im : ℚ) : ℚ :=
  if re = 0 ∧ im = 0 then 0 else sqrtA (re * re + im * im)

/-- Entry `(k, t)` of `magnitude = np.abs(librosa.stft(y, ...))`
(`src/generator.py:50-51`). -/
def stftMag (P : ExtParams) (y : List ℚ) (hop k t : ℕ) : ℚ :=
  let fr := frameAt (padCenter y) hop t
  cAbs P.sqrtA
    (dotIdx (fun j a => P.window j * P.dftCos k j * a) 0 fr)
    (dotIdx (fun j a => P.window j * P.dftSin k j * a) 0 fr)

/-- Entry `(b, t)` of `mel_spectrogram = np.dot(mel_basis, magnitude)`
(`src/generator.py:54-55`); the spectrogram has `1 + n_fft/2` frequency
bins. -/
def melSpec (P : ExtParams) (y : List ℚ) (sr hop b t : ℕ) : ℚ :=
  ((List.range (n_fft / 2 + 1)).map fun k => P.melW sr b k * stftMag P y hop k t).sum

/-- `amin = 1e-10`, the floor used by `librosa.power_to_db`. -/
def aminDb : ℚ := 1 / 10000000000

/-- `librosa.power_to_db(S, ref=np.max)` (`src/generator.py:58`): with a
callable `ref`, `ref_value = np.max(S)`; each entry becomes
`10*log10(max(amin, v)) - 10*log10(max(amin, ref_value))`, then the
result is clamped from below at its maximum minus `top_db = 80`. -/
def powerToDb (P : ExtParams) (S : List (List ℚ)) : List (List ℚ) :=
  let ref := listMax S.flatten
  let log1 := S.map (List.map fun v =>
    10 * P.log10A (max aminDb v) - 10 * P.log10A (max aminDb ref))
  let mx := listMax log1.flatten
  log1.map (List.map fun v => max v (mx - 80))

/-- The mel spectrogram matrix, rows indexed by band, columns by frame. -/
def melMatrix (P : ExtParams) (y : List ℚ) (sr n_bands hop : ℕ) : List (List ℚ) :=
  (List.range n_bands).map fun b =>
    (List.range (stftNumFrames y.length hop)).map fun t => melSpec P y sr hop b t

/-- `log_mel = librosa.power_to_db(mel_spectrogram, ref=np.max)`
(`src/generator.py:58`). -/
def log_mel (P : ExtParams) (y : List ℚ) (sr n_bands hop : ℕ) : List (List ℚ) :=
  powerToDb P (melMatrix P y sr n_bands hop)

/-- The denominator `log_mel.max() - log_mel.min()` of the global min/max
normalization at `src/generator.py:61`.  The source divides by this with
no special case for `min == max`. -/
def normDenom (P : ExtParams) (y : List ℚ) (sr n_bands hop : ℕ) : ℚ :=
  listMax (log_mel P y sr n_bands hop).flatten - listMin (log_mel P y sr n_bands hop).flatten

/-- `m.shape[1]` of a matrix stored as a list of rows. -/
def matrixCols (m : List (List ℚ)) : ℕ := (m.head?.getD []).length

theorem mem_padCenter_silent {n : ℕ} {x : ℚ}
    (hx : x ∈ padCenter (List.replicate n 0)) : x = 0 := by
  unfold padCenter at hx
  rcases List.mem_append.mp hx with h | h
  · rcases List.mem_append.mp h with h2 | h2 <;> exact List.eq_of_mem_replicate h2
  · exact List.eq_of_mem_replicate h

theorem mem_frameAt_silent {n hop t : ℕ} {x : ℚ}
    (hx : x ∈ frameAt (padCenter (List.replicate n 0)) hop t) : x = 0 := by
  unfold frameAt at hx
  exact mem_padCenter_silent (List.drop_subset _ _ (List.take_subset _ _ hx))

theorem dotIdx_zero (g : ℕ → ℚ → ℚ) (hg : ∀ j, g j 0 = 0) :
    ∀ (i : ℕ) (l : List ℚ), (∀ x ∈ l, x = 0) → dotIdx g i l = 0 := by
  intro i l
  induction l generalizing i with
  | nil => intro _; rfl
  | cons a t ih =>
    intro h
    have ha : a = 0 := h a (List.mem_cons_self a t)
    rw [dotIdx, ha, hg i, ih (i + 1) (fun x hx => h x (List.mem_cons_of_mem a hx)),
      add_zero]

theorem stftMag_silent (P : ExtParams) (n hop k t : ℕ) :
    stftMag P (List.replicate n 0) hop k t = 0 := by
  simp only [stftMag]
  rw [dotIdx_zero _ (fun j => by ring) 0 _ (fun x hx => mem_frameAt_silent hx),
    dotIdx_zero _ (fun j => by ring) 0 _ (fun x hx => mem_frameAt_silent hx)]
  unfold cAbs
  simp

theorem melSpec_silent (P : ExtParams) (n sr hop b t : ℕ) :
    melSpec P (List.replicate n 0) sr hop b t = 0 := by
  unfold melSpec
  apply List.sum_eq_zero
  intro x hx
  rcases List.mem_map.mp hx with ⟨k, _, rfl⟩
  rw [stftMag_silent, mul_zero]

theorem mem_melMatrix_silent (P : ExtParams) {n sr n_bands hop : ℕ} {x : ℚ}
    (hx : x ∈ (melMatrix P (List.replicate n 0) sr n_bands hop).flatten) : x = 0 := by
  rcases List.mem_flatten.mp hx with ⟨row, hrow, hxr⟩
  unfold melMatrix at hrow
  rcases List.mem_map.mp hrow with ⟨b, _, rfl⟩
  rcases List.mem_map.mp hxr with ⟨t, _, rfl⟩
  exact melSpec_silent P n sr hop b t

theorem listMax_zeros : ∀ l : List ℚ, (∀ x ∈ l, x = 0) → listMax l = 0 := by
  have aux : ∀ (l : List ℚ) (a : ℚ), (∀ x ∈ l, x = 0) → a = 0 → l.foldl max a = 0 := by
    intro l
    induction l with
    | nil => intro a _ ha; exact ha
    | cons b t ih =>
      intro a h ha
      have hb : b = 0 := h b (List.mem_cons_self b t)
      rw [List.foldl_cons]
      exact ih _ (fun x hx => h x (List.mem_cons_of_mem b hx)) (by rw [ha, hb]; simp)
  intro l h
  cases l with
  | nil => rfl
  | cons a t =>
    exact aux t a (fun x hx => h x (List.mem_cons_of_mem a hx))
      (h a (List.mem_cons_self a t))

theorem listMin_zeros : ∀ l : List ℚ, (∀ x ∈ l, x = 0) → listMin l = 0 := by
  have aux : ∀ (l : List ℚ) (a : ℚ), (∀ x ∈ l, x = 0) → a = 0 → l.foldl min a = 0 := by
    intro l
    induction l with
    | nil => intro a _ ha; exact ha
    | cons b t ih =>
      intro a h ha
      have hb : b = 0 := h b (List.mem_cons_self b t)
      rw [List.foldl_cons]
      exact ih _ (fun x hx => h x (List.mem_cons_of_mem b hx)) (by rw [ha, hb]; simp)
  intro l h
  cases l with
  | nil => rfl
  | cons a t =>
    exact aux t a (fun x hx => h x (List.mem_cons_of_mem a hx))
      (h a (List.mem_cons_self a t))

theorem mem_flatten_map_map {g : ℚ → ℚ} {M : List (List ℚ)} {x : ℚ}
    (hx : x ∈ (M.map (List.map g)).flatten) : ∃ v, v ∈ M.flatten ∧ x = g v := by
  rcases List.mem_flatten.mp hx with ⟨row, hrow, hxr⟩
  rcases List.mem_map.mp hrow with ⟨r, hr, rfl⟩
  rcases List.mem_map.mp hxr with ⟨v, hv, rfl⟩
  exact ⟨v, List.mem_flatten.mpr ⟨r, hr, hv⟩, rfl⟩

theorem powerToDb_silent (P : ExtParams) (S : List (List ℚ))
    (hS : ∀ x ∈ S.flatten, x = 0) :
    ∀ x ∈ (powerToDb P S).flatten, x = 0 := by
  intro x hx
  unfold powerToDb at hx
  have href : listMax S.flatten = 0 := listMax_zeros _ hS
  have hlog1 : ∀ v ∈ (S.map (List.map fun v =>
      10 * P.log10A (max aminDb v) - 10 * P.log10A (max aminDb (listMax S.flatten)))).flatten,
      v = 0 := by
    intro v hv
    rcases mem_flatten_map_map hv with ⟨u, hu, rfl⟩
    rw [hS u hu, href, sub_self]
  rcases mem_flatten_map_map hx with ⟨v, hv, rfl⟩
  rw [hlog1 v hv, listMax_zeros _ hlog1]
  norm_num

theorem log_mel_silent (P : ExtParams) (n sr n_bands hop : ℕ) :
    ∀ x ∈ (log_mel P (List.replicate n 0) sr n_bands hop).flatten, x = 0 := by
  unfold log_mel
  exact powerToDb_silent P _ (fun x hx => mem_melMatrix_silent P hx)

/-- C2 (code_bug): on an all-zero signal the whole log-mel matrix is
constant, so the normalization denominator `log_mel.max() - log_mel.min()`
at `src/generator.py:61` is exactly 0 — for every choice of window, DFT
table, mel weights, `log10` and `sqrt` values.  The source divides by it
with no special case, so `numpy` evaluates every entry as `0/0 = NaN`,
contradicting the claim that a defined constant is returned. -/
theorem silent_normalization_denominator_zero (P : ExtParams) (n sr n_bands hop : ℕ) :
    normDenom P (List.replicate n 0) sr n_bands hop = 0 := by
  unfold normDenom
  rw [listMax_zeros _ (log_mel_silent P n sr n_bands hop),
    listMin_zeros _ (log_mel_silent P n sr n_bands hop), sub_self]

/-- One OpenCV drawing primitive issued while rendering a frame
(`cv2.rectangle`, `cv2.circle`, `cv2.fillPoly`, `cv2.polylines`). -/
inductive DrawOp where
  | rect (p1 p2 : ℤ × ℤ) (color : List ℤ) (thickness : ℤ)
  | circle (center : ℤ × ℤ) (radius : ℤ) (color : List ℤ) (thickness : ℤ)
  | fillPoly (pts : List (ℤ × ℤ)) (color : List ℤ)
  | polylines (pts : List (ℤ × ℤ)) (closed : Bool) (color : List ℤ) (thickness : ℤ)
deriving DecidableEq

/-- The style dictionary consumed by the renderer and orchestrator, with
the defaults of the `style_params.get(...)` calls resolved by the caller
(the GUI always supplies every key). -/
structure StyleParams where
  background_color : List ℤ
  bar_color : List ℤ
  highlight_color : Option (List ℤ)
  gradient_effect : Bool
  bar_style : String
  fps : ℤ
  n_bands : ℕ
  width : ℤ
  height : ℤ
deriving DecidableEq

/-- `style_params.get(highlight_color, [min(255, c + 50) for c in bar_color])`
(`src/generator.py:242`; the default is the brightened bar color). -/
def highlightOf (sp : StyleParams) : List ℤ :=
  sp.highlight_color.getD (sp.bar_color.map fun c => min 255 (c + 50))

/-- `draw_rectangle_bars` (`src/generator.py:66-72`). -/
def draw_rectangle_bars (x y_start y_end x_end : ℤ) (bar_color highlight_color : List ℤ)
    (gradient_effect : Bool) : List DrawOp :=
  DrawOp.rect (x, y_start) (x_end, y_end) bar_color (-1) ::
    (if gradient_effect then
      let bar_height := y_end - y_start
      [DrawOp.rect (x, y_start) (x_end, y_start + max 1 (Int.fdiv bar_height 4))
        highlight_color (-1)]
    else [])

/-- `draw_rounded_bars` (`src/generator.py:74-93`). -/
def draw_rounded_bars (x y_start y_end x_end : ℤ) (bar_color highlight_color : List ℤ)
    (gradient_effect : Bool) : List DrawOp :=
  let bar_width := x_end - x
  let bar_height := y_end - y_start
  let radius := min (Int.fdiv bar_width 4) 8
  [DrawOp.rect (x, y_start + radius) (x_end, y_end - radius) bar_color (-1),
   DrawOp.rect (x + radius, y_start) (x_end - radius, y_end) bar_color (-1),
   DrawOp.circle (x + radius, y_start + radius) radius bar_color (-1),
   DrawOp.circle (x_end - radius, y_start + radius) radius bar_color (-1),
   DrawOp.circle (x + radius, y_end - radius) radius bar_color (-1),
   DrawOp.circle (x_end - radius, y_end - radius) radius bar_color (-1)] ++
    (if gradient_effect then
      [DrawOp.rect (x + radius, y_start)
        (x_end - radius, y_start + max 1 (Int.fdiv bar_height 4)) highlight_color (-1)]
    else [])

/-- `draw_circle_bars` (`src/generator.py:95-116`). -/
def draw_circle_bars (x y_start y_end x_end : ℤ) (bar_color highlight_color : List ℤ)
    (gradient_effect : Bool) : List DrawOp :=
  let bar_width := x_end - x
  let bar_height := y_end - y_start
  let center_x := x + Int.fdiv bar_width 2
  let circle_radius := max 2 (Int.fdiv bar_width 4)
  let circle_spacing := circle_radius * 2 + 2
  let num_circles := max 1 (Int.fdiv bar_height circle_spacing)
  (List.range num_circles.toNat).flatMap fun i =>
    let circle_y := y_end - ((i : ℤ) + 1) * circle_spacing + circle_radius
    if y_start ≤ circle_y then
      let alpha : ℚ := 1 - ((i : ℚ) / ((max 1 (num_circles - 1) : ℤ) : ℚ)) * (1/2)
      let circle_color := bar_color.map fun c => pyInt ((c : ℚ) * alpha)
      DrawOp.circle (center_x, circle_y) circle_radius circle_color (-1) ::
        (if gradient_effect then
          [DrawOp.circle (center_x, circle_y) (max 1 (Int.fdiv circle_radius 2))
            highlight_color (-1)]
        else [])
    else []

/-- `draw_triangle_bars` (`src/generator.py:118-134`). -/
def draw_triangle_bars (x y_start y_end x_end : ℤ) (bar_color highlight_color : List ℤ)
    (gradient_effect : Bool) : List DrawOp :=
  let bar_width := x_end - x
  let center_x := x + Int.fdiv bar_width 2
  let points := [(center_x, y_start), (x, y_end), (x_end, y_end)]
  DrawOp.fillPoly points bar_color ::
    (if gradient_effect then [DrawOp.polylines points true highlight_color 2] else [])

/-- `draw_symmetric_bars` (`src/generator.py:136-151`). -/
def draw_symmetric_bars (x y_start y_end x_end : ℤ) (bar_color highlight_color : List ℤ)
    (gradient_effect : Bool) (center_y : ℤ) : List DrawOp :=
  let bar_height := y_end - y_start
  let half_height := Int.fdiv bar_height 2
  [DrawOp.rect (x, center_y - half_height) (x_end, center_y) bar_color (-1),
   DrawOp.rect (x, center_y) (x_end, center_y + half_height) bar_color (-1)] ++
    (if gradient_effect then
      [DrawOp.rect (x, center_y - half_height)
         (x_end, center_y - half_height + max 1 (Int.fdiv half_height 3))
         highlight_color (-1),
       DrawOp.rect (x, center_y + half_height - max 1 (Int.fdiv half_height 3))
         (x_end, center_y + half_height) highlight_color (-1)]
    else [])

/-- `draw_waterfall_bars` (`src/generator.py:153-169`). -/
def draw_waterfall_bars (x y_start y_end x_end : ℤ) (bar_color highlight_color : List ℤ)
    (gradient_effect : Bool) : List DrawOp :=
  let bar_height := y_end - y_start
  let steps := max 5 (Int.fdiv bar_height 5)
  ((List.range steps.toNat).map fun i =>
    let step_height := Int.fdiv bar_height steps
    let current_y := y_end - ((i : ℤ) + 1) * step_height
    let alpha : ℚ := 3/10 + (7/10) * ((i : ℚ) / ((max 1 (steps - 1) : ℤ) : ℚ))
    let step_color := bar_color.map fun c => pyInt ((c : ℚ) * alpha)
    DrawOp.rect (x, current_y) (x_end, current_y + step_height) step_color (-1)) ++
    (if gradient_effect then
      [DrawOp.rect (x, y_start) (x_end, y_start + max 1 (Int.fdiv bar_height 6))
        highlight_color (-1)]
    else [])

/-- `draw_pulse_bars` (`src/generator.py:171-193`).  `pulseF frame_idx fps`
stands for the float value of
`0.8 + 0.4 * math.sin(2 * math.pi * ((frame_idx / fps) % 2.0) / 2.0)`, a
fixed pure function of its two arguments (irrational, hence a parameter). -/
def draw_pulse_bars (pulseF : ℕ → ℤ → ℚ) (x y_start y_end x_end : ℤ)
    (bar_color highlight_color : List ℤ) (gradient_effect : Bool)
    (frame_idx : ℕ) (fps : ℤ) : List DrawOp :=
  let pulse_factor := pulseF frame_idx fps
  let bar_width := x_end - x
  let bar_height := y_end - y_start
  let adjusted_height := pyInt ((bar_height : ℚ) * pulse_factor)
  let adjusted_y_start := y_end - adjusted_height
  DrawOp.rect (x, adjusted_y_start) (x_end, y_end) bar_color (-1) ::
    (if gradient_effect then
      let glow_radius := max 1 (pyInt ((bar_width : ℚ) * (1/5) * pulse_factor))
      (List.range glow_radius.toNat).map fun (i : ℕ) =>
        let alpha : ℚ := (3/10) * (1 - (i : ℚ) / (glow_radius : ℚ))
        let glow_color := highlight_color.map fun c => pyInt ((c : ℚ) * alpha)
        DrawOp.rect (x - (i : ℤ), adjusted_y_start - (i : ℤ))
          (x_end + (i : ℤ), y_end + (i : ℤ)) glow_color 1
    else [])

/-- `draw_neon_bars` (`src/generator.py:195-206`). -/
def draw_neon_bars (x y_start y_end x_end : ℤ) (bar_color highlight_color : List ℤ)
    (gradient_effect : Bool) : List DrawOp :=
  DrawOp.rect (x + 2, y_start + 2) (x_end - 2, y_end - 2) bar_color (-1) ::
    (if gradient_effect then
      [DrawOp.rect (x, y_start) (x_end, y_end) highlight_color 2,
       DrawOp.rect (x + 1, y_start + 1) (x_end - 1, y_end - 1)
         (highlight_color.map fun c => min 255 (c + 50)) 1]
    else [])

/-- `bar_width = max(1, width // (n_bands + 1))` (`src/generator.py:236`). -/
def bar_width (w : ℤ) (n_bands : ℕ) : ℤ := max 1 (Int.fdiv w ((n_bands : ℤ) + 1))

/-- `spacing = max(1, width // (n_bands * 2))` (`src/generator.py:237`). -/
def spacing (w : ℤ) (n_bands : ℕ) : ℤ := max 1 (Int.fdiv w ((n_bands : ℤ) * 2))

/-- `x = i * (bar_width + spacing) + spacing` (`src/generator.py:251`). -/
def bar_x (w : ℤ) (n_bands i : ℕ) : ℤ :=
  (i : ℤ) * (bar_width w n_bands + spacing w n_bands) + spacing w n_bands

/-- `bar_height = int(energy * max_bar_height)` with
`max_bar_height = height * 0.8` (`src/generator.py:238,252`). -/
def bar_height_of (h : ℤ) (energy : ℚ) : ℤ := pyInt (energy * ((h : ℚ) * (8/10)))

/-- `bottom_margin = height * 0.1` (`src/generator.py:266`). -/
def bottom_margin_of (h : ℤ) : ℚ := (h : ℚ) * (1/10)

/-- `y_end = int(height - bottom_margin)` (`src/generator.py:267`). -/
def y_end_of (h : ℤ) : ℤ := pyInt ((h : ℚ) - bottom_margin_of h)

/-- The style dispatch of the bottom-anchored branch
(`src/generator.py:275-290`): the `elif` chain applying the selected
draw function to the computed bar box. -/
def bottomAnchoredDraw (pulseF : ℕ → ℤ → ℚ) (sp : StyleParams) (frame_idx : ℕ)
    (x y_start y_end x_end : ℤ) : List DrawOp :=
  let bar_color := sp.bar_color
  let highlight_color := highlightOf sp
  if sp.bar_style = "rectangle" then
    draw_rectangle_bars x y_start y_end x_end bar_color highlight_color sp.gradient_effect
  else if sp.bar_style = "rounded" then
    draw_rounded_bars x y_start y_end x_end bar_color highlight_color sp.gradient_effect
  else if sp.bar_style = "circle" then
    draw_circle_bars x y_start y_end x_end bar_color highlight_color sp.gradient_effect
  else if sp.bar_style = "triangle" then
    draw_triangle_bars x y_start y_end x_end bar_color highlight_color sp.gradient_effect
  else if sp.bar_style = "waterfall" then
    draw_waterfall_bars x y_start y_end x_end bar_color highlight_color sp.gradient_effect
  else if sp.bar_style = "pulse" then
    draw_pulse_bars pulseF x y_start y_end x_end bar_color highlight_color
      sp.gradient_effect frame_idx sp.fps
  else if sp.bar_style = "neon" then
    draw_neon_bars x y_start y_end x_end bar_color highlight_color sp.gradient_effect
  else []

/-- Body of the per-band loop of `create_energy_bar_frame`
(`src/generator.py:249-290`): the drawing primitives issued for band `i`
with energy `energy`. -/
def barOps (pulseF : ℕ → ℤ → ℚ) (sp : StyleParams) (w h : ℤ) (n_bands : ℕ)
    (frame_idx : ℕ) (i : ℕ) (energy : ℚ) : List DrawOp :=
  let bar_color := sp.bar_color
  let highlight_color := highlightOf sp
  let x := bar_x w n_bands i
  let bar_height := bar_height_of h energy
  if 0 < bar_height then
    if sp.bar_style = "symmetric" then
      let center_y := Int.fdiv h 2
      let half_height := Int.fdiv bar_height 2
      let y_start := center_y - half_height
      let y_end := center_y + half_height
      let x_end := min w (x + bar_width w n_bands)
      draw_symmetric_bars x y_start y_end x_end bar_color highlight_color
        sp.gradient_effect center_y
    else
      let y_end0 := y_end_of h
      let y_start0 := max (pyInt (bottom_margin_of h)) (y_end0 - bar_height)
      let y_start := max 0 y_start0
      let y_end := min h y_end0
      let x_end := min w (x + bar_width w n_bands)
      bottomAnchoredDraw pulseF sp frame_idx x y_start y_end x_end
  else []

/-- A rendered frame: the `np.zeros((height, width, 3), dtype=np.uint8)`
bitmap filled with `background_color`, together with the ordered list of
drawing primitives issued on top of it.  Equality of two such records is
byte-identity of the resulting bitmaps, since OpenCV rasterization is a
fixed deterministic function of the primitive list. -/
structure RenderedFrame where
  height : ℤ
  width : ℤ
  channels : ℕ
  background : List ℤ
  ops : List DrawOp
deriving DecidableEq

/-- `features[:, frame_idx]` (`src/generator.py:233`). -/
def currentFeatures (features : List (List ℚ)) (frame_idx : ℕ) : List ℚ :=
  features.map fun row => row.getD frame_idx 0

/-- `create_energy_bar_frame` (`src/generator.py:209-292`). -/
def create_energy_bar_frame (pulseF : ℕ → ℤ → ℚ) (features : List (List ℚ))
    (frame_idx : ℕ) (width height : ℤ) (sp : StyleParams) : RenderedFrame :=
  if matrixCols features ≤ frame_idx then
    ⟨height, width, 3, sp.background_color, []⟩
  else
    ⟨height, width, 3, sp.background_color,
      (currentFeatures features frame_idx).enum.flatMap fun p =>
        barOps pulseF sp width height features.length frame_idx p.1 p.2⟩

/-- A fixed concrete stand-in for the pulse table, used in closed
evaluations of styles that never consult it. -/
def pulse0 : ℕ → ℤ → ℚ := fun _ _ => 0

/-- The classic rectangle template at the default video settings. -/
def spRectangle : StyleParams :=
  ⟨[0, 30, 0], [0, 255, 0], none, true, "rectangle", 25, 64, 1280, 720⟩

/-- The rectangle template with the gradient pass disabled. -/
def spRectangleNoGrad : StyleParams :=
  ⟨[0, 30, 0], [0, 255, 0], none, false, "rectangle", 25, 64, 1280, 720⟩

/-- C10 (confirmed): for a frame index at or past the number of feature
columns the renderer returns the full `height × width × 3` frame filled
with the background color and issues no drawing primitive
(`src/generator.py:222-231`). -/
theorem frame_past_end_is_background (pulseF : ℕ → ℤ → ℚ) (features : List (List ℚ))
    (frame_idx : ℕ) (width height : ℤ) (sp : StyleParams)
    (h : matrixCols features ≤ frame_idx) :
    create_energy_bar_frame pulseF features frame_idx width height sp
      = ⟨height, width, 3, sp.background_color, []⟩ := by
  unfold create_energy_bar_frame
  rw [if_pos h]

/-- Witness for C10: index 5 on a 2-column feature matrix. -/
theorem frame_past_end_is_background_witness :
    matrixCols [[1/2, 1]] ≤ 5 ∧
      create_energy_bar_frame pulse0 [[1/2, 1]] 5 1280 720 spRectangle
        = ⟨720, 1280, 3, spRectangle.background_color, []⟩ :=
  ⟨by decide, frame_past_end_is_background pulse0 [[1/2, 1]] 5 1280 720 spRectangle (by decide)⟩

/-- C3 (confirmed): rendering is deterministic.  The embedding of
`create_energy_bar_frame` is a total function of the feature matrix, frame
index, dimensions, style configuration and the fixed `math.sin` based
pulse table — the time-dependent pulse variant depends only on
`frame_idx` and `fps`, never on wall-clock state — so two calls on
identical inputs return identical bitmaps, for every style variant. -/
theorem create_energy_bar_frame_deterministic
    (pulseF pulseF2 : ℕ → ℤ → ℚ) (features features2 : List (List ℚ))
    (frame_idx frame_idx2 : ℕ) (width width2 height height2 : ℤ)
    (sp sp2 : StyleParams)
    (h1 : pulseF = pulseF2) (h2 : features = features2) (h3 : frame_idx = frame_idx2)
    (h4 : width = width2) (h5 : height = height2) (h6 : sp = sp2) :
    create_energy_bar_frame pulseF features frame_idx width height sp
      = create_energy_bar_frame pulseF2 features2 frame_idx2 width2 height2 sp2 := by
  subst h1 h2 h3 h4 h5 h6
  rfl

/-- Witness for C3: two identical calls on a concrete input coincide. -/
theorem create_energy_bar_frame_deterministic_witness :
    pulse0 = pulse0 ∧
      create_energy_bar_frame pulse0 [[1]] 0 64 48 spRectangle
        = create_energy_bar_frame pulse0 [[1]] 0 64 48 spRectangle :=
  ⟨rfl, create_energy_bar_frame_deterministic pulse0 pulse0 [[1]] [[1]] 0 0 64 64 48 48
    spRectangle spRectangle rfl rfl rfl rfl rfl rfl⟩

/-- The coordinate points carried by a drawing primitive. -/
def opCoords : DrawOp → List (ℤ × ℤ)
  | DrawOp.rect p1 p2 _ _ => [p1, p2]
  | DrawOp.circle c _ _ _ => [c]
  | DrawOp.fillPoly pts _ => pts
  | DrawOp.polylines pts _ _ _ => pts

/-- Every coordinate of every issued primitive lies in `[0,width) × [0,height)`. -/
def coordsInBounds (f : RenderedFrame) : Bool :=
  f.ops.all fun op => (opCoords op).all fun p =>
    decide (0 ≤ p.1 ∧ p.1 < f.width ∧ 0 ≤ p.2 ∧ p.2 < f.height)

/-- A small rectangle-style configuration (4 × 20 frame, 3 bands, gradient
pass off) used for closed evaluations. -/
def spRectSmall : StyleParams :=
  ⟨[0, 30, 0], [0, 255, 0], none, false, "rectangle", 25, 3, 4, 20⟩

/-- C4 counterexample: a 4 × 20 frame with 3 bands of energy 1 — all
entries in [0,1], positive dimensions, rectangle style — makes the
renderer issue the rectangle `(5, 2)-(4, 18)` for band 2: its left edge
`x = i*(bar_width+spacing)+spacing = 5` lies beyond the frame width 4, so
not all drawn geometry lies within `[0,width) × [0,height)`.  (The same
happens at the default 1280 × 720, 64-band configuration, where band 44
already has `x = 1286 ≥ 1280`.) -/
theorem some_op_coordinates_out_of_bounds :
    coordsInBounds (create_energy_bar_frame pulse0 [[1], [1], [1]] 0 4 20
      spRectSmall) = false := by
  have hf : create_energy_bar_frame pulse0 [[1], [1], [1]] 0 4 20 spRectSmall
      = ⟨20, 4, 3, [0, 30, 0],
          [DrawOp.rect (1, 2) (2, 18) [0, 255, 0] (-1),
           DrawOp.rect (3, 2) (4, 18) [0, 255, 0] (-1),
           DrawOp.rect (5, 2) (4, 18) [0, 255, 0] (-1)]⟩ := by
    norm_num [create_energy_bar_frame, currentFeatures, matrixCols, barOps,
      bottomAnchoredDraw, highlightOf,
      bar_x, bar_width, spacing, bar_height_of, bottom_margin_of, y_end_of,
      draw_rectangle_bars, pyInt, spRectSmall, List.enum, List.enumFrom,
      max_def, min_def,
      (by decide : Int.fdiv 4 4 = 1), (by decide : Int.fdiv 4 6 = 0),
      (by decide : ¬ (("rectangle" : String) = "symmetric"))]
  rw [hf]
  decide

theorem pyInt_of_nonneg {q : ℚ} (h : 0 ≤ q) : pyInt q = ⌊q⌋ := if_pos h

theorem snd_mem_of_mem_enumFrom {α : Type} {p : ℕ × α} :
    ∀ (l : List α) (n : ℕ), p ∈ l.enumFrom n → p.2 ∈ l := by
  intro l
  induction l with
  | nil => intro n h; simp [List.enumFrom] at h
  | cons a t ih =>
    intro n h
    rcases List.mem_cons.mp h with h1 | h1
    · rw [h1]; exact List.mem_cons_self a t
    · exact List.mem_cons_of_mem a (ih (n + 1) h1)

theorem snd_mem_of_mem_enum {α : Type} {p : ℕ × α} {l : List α}
    (h : p ∈ l.enum) : p.2 ∈ l :=
  snd_mem_of_mem_enumFrom l 0 h

theorem currentFeatures_bounds {features : List (List ℚ)} {frame_idx : ℕ}
    (hfeat : ∀ r ∈ features, ∀ e ∈ r, 0 ≤ e ∧ e ≤ 1) :
    ∀ e ∈ currentFeatures features frame_idx, 0 ≤ e ∧ e ≤ 1 := by
  intro e he
  rcases List.mem_map.mp he with ⟨r, hr, rfl⟩
  rcases hq : r[frame_idx]? with _ | v
  · rw [List.getD_eq_getElem?_getD, hq]
    norm_num
  · rw [List.getD_eq_getElem?_getD, hq]
    exact hfeat r hr v (List.getElem?_mem hq)

/-- The vertical coordinates of a primitive stay within `[0, height]` and
its second (bottom-right) corner stays at or left of `width`; primitives
other than rectangles satisfy it trivially. -/
def opWithinVerticalBounds (w h : ℤ) : DrawOp → Prop
  | DrawOp.rect p1 p2 _ _ => 0 ≤ p1.2 ∧ p1.2 ≤ h ∧ 0 ≤ p2.2 ∧ p2.2 ≤ h ∧ p2.1 ≤ w
  | _ => True

theorem barOps_rectangle_within (pulseF : ℕ → ℤ → ℚ) (sp : StyleParams)
    (w h : ℤ) (n frame_idx i : ℕ) (e : ℚ)
    (hstyle : sp.bar_style = "rectangle") (hh : 0 ≤ h)
    (he0 : 0 ≤ e) (he1 : e ≤ 1) :
    ∀ op ∈ barOps pulseF sp w h n frame_idx i e, opWithinVerticalBounds w h op := by
  have hhQ : (0 : ℚ) ≤ (h : ℚ) := by exact_mod_cast hh
  have hbm0 : (0 : ℚ) ≤ (h : ℚ) * (1/10) := mul_nonneg hhQ (by norm_num)
  have hA0 : 0 ≤ ⌊(h : ℚ) * (1/10)⌋ := Int.floor_nonneg.mpr hbm0
  have hAh : ⌊(h : ℚ) * (1/10)⌋ ≤ h := by
    calc ⌊(h : ℚ) * (1/10)⌋ ≤ ⌊(h : ℚ)⌋ :=
          Int.floor_le_floor (mul_le_of_le_one_right hhQ (by norm_num))
    _ = h := Int.floor_intCast h
  have h9 : (h : ℚ) - (h : ℚ) * (1/10) = (h : ℚ) * (9/10) := by ring
  have h90 : (0 : ℚ) ≤ (h : ℚ) * (9/10) := mul_nonneg hhQ (by norm_num)
  have hB0 : 0 ≤ ⌊(h : ℚ) * (9/10)⌋ := Int.floor_nonneg.mpr h90
  have hBh : ⌊(h : ℚ) * (9/10)⌋ ≤ h := by
    calc ⌊(h : ℚ) * (9/10)⌋ ≤ ⌊(h : ℚ)⌋ :=
          Int.floor_le_floor (mul_le_of_le_one_right hhQ (by norm_num))
    _ = h := Int.floor_intCast h
  simp only [barOps, bottomAnchoredDraw, bar_height_of, bottom_margin_of, y_end_of, hstyle]
  by_cases hbh : 0 < pyInt (e * ((h : ℚ) * (8/10)))
  · rw [if_pos hbh]
    simp only [if_true]
    have hbharg : 0 ≤ e * ((h : ℚ) * (8/10)) :=
      mul_nonneg he0 (mul_nonneg hhQ (by norm_num))
    rw [pyInt_of_nonneg hbharg] at hbh ⊢
    rw [pyInt_of_nonneg hbm0, h9, pyInt_of_nonneg h90]
    have hq1 : ((1 : ℤ) : ℚ) ≤ e * ((h : ℚ) * (8/10)) := Int.le_floor.mp (by omega)
    have hq2 : (1 : ℚ) ≤ (h : ℚ) * (8/10) :=
      le_trans (by exact_mod_cast hq1) (mul_le_of_le_one_left (mul_nonneg hhQ (by norm_num)) he1)
    have hh2 : 2 ≤ h := by
      have h10 : (10 : ℚ) ≤ 8 * (h : ℚ) := by linarith
      have h10z : (10 : ℤ) ≤ 8 * h := by exact_mod_cast h10
      omega
    have hAB : ⌊(h : ℚ) * (1/10)⌋ + 1 ≤ ⌊(h : ℚ) * (9/10)⌋ := by
      have hle : (h : ℚ) * (1/10) + 1 ≤ (h : ℚ) * (9/10) := by
        have h2Q : (2 : ℚ) ≤ (h : ℚ) := by exact_mod_cast hh2
        linarith
      calc ⌊(h : ℚ) * (1/10)⌋ + 1 = ⌊(h : ℚ) * (1/10) + 1⌋ := (Int.floor_add_one _).symm
      _ ≤ ⌊(h : ℚ) * (9/10)⌋ := Int.floor_le_floor hle
    intro op hop
    simp only [draw_rectangle_bars] at hop
    set A := ⌊(h : ℚ) * (1/10)⌋ with hAdef
    set B := ⌊(h : ℚ) * (9/10)⌋ with hBdef
    set BH := ⌊e * ((h : ℚ) * (8/10))⌋ with hBHdef
    rcases List.mem_cons.mp hop with rfl | h2
    · simp only [opWithinVerticalBounds]
      refine ⟨?_, ?_, ?_, ?_, ?_⟩ <;> omega
    · rcases hg : sp.gradient_effect with _ | _
      · rw [hg] at h2; simp at h2
      · rw [hg] at h2
        simp only [if_pos] at h2
        rcases List.mem_singleton.mp h2 with rfl
        simp only [opWithinVerticalBounds]
        rw [Int.fdiv_eq_ediv _ (by norm_num)]
        refine ⟨?_, ?_, ?_, ?_, ?_⟩ <;> omega
  · rw [if_neg hbh]
    intro op hop
    simp at hop

/-- C4 (corrected): for the rectangle variant, energies in `[0,1]` and a
nonnegative frame height, every issued primitive has both y-coordinates
clamped into `[0, height]` and its right edge at or left of `width`
(the clamps of `src/generator.py:270-273`).  The left x-coordinate is not
clamped and can lie at or beyond the frame width (see the counterexample);
such primitives rely on the raster layer clipping to the bitmap. -/
theorem rectangle_ops_vertically_clipped (pulseF : ℕ → ℤ → ℚ)
    (features : List (List ℚ)) (frame_idx : ℕ) (w h : ℤ) (sp : StyleParams)
    (hstyle : sp.bar_style = "rectangle") (hh : 0 ≤ h)
    (hfeat : ∀ r ∈ features, ∀ e ∈ r, 0 ≤ e ∧ e ≤ 1) :
    ∀ op ∈ (create_energy_bar_frame pulseF features frame_idx w h sp).ops,
      opWithinVerticalBounds w h op := by
  intro op hop
  unfold create_energy_bar_frame at hop
  by_cases hidx : matrixCols features ≤ frame_idx
  · rw [if_pos hidx] at hop
    simp at hop
  · rw [if_neg hidx] at hop
    simp only at hop
    rcases List.mem_flatMap.mp hop with ⟨p, hp, hop2⟩
    have hpe := currentFeatures_bounds hfeat p.2 (snd_mem_of_mem_enum hp)
    exact barOps_rectangle_within pulseF sp w h features.length frame_idx p.1 p.2
      hstyle hh hpe.1 hpe.2 op hop2

/-- Witness for C4: the rectangle configuration on a 4 × 20 frame with a
single band of energy one half. -/
theorem rectangle_ops_vertically_clipped_witness :
    spRectSmall.bar_style = "rectangle" ∧ (0 : ℤ) ≤ 20 ∧
      (∀ r ∈ [[(1 : ℚ)/2]], ∀ e ∈ r, 0 ≤ e ∧ e ≤ 1) ∧
      ∀ op ∈ (create_energy_bar_frame pulse0 [[(1 : ℚ)/2]] 0 4 20 spRectSmall).ops,
        opWithinVerticalBounds 4 20 op :=
  ⟨rfl, by norm_num, by norm_num,
    rectangle_ops_vertically_clipped pulse0 [[(1 : ℚ)/2]] 0 4 20 spRectSmall rfl
      (by norm_num) (by norm_num)⟩

/-- C6 (corrected): for every non-symmetric bar-family variant
(rectangle, rounded, circle, triangle, waterfall, pulse, neon), a band
`i` with `bar_height = ⌊energy * 0.8 * height⌋ > 0` and no clipping
binding has its style drawing pass invoked on the base bar box running
from `(x, y_end - bar_height)` to `(x + bar_width, y_end)`, with
`x = i*(bar_width+spacing)+spacing`, `bar_width = max(1, ⌊w/(n+1)⌋)` and
anchor `y_end = int(height - 0.1*height)` — the inter-bar spacing only
separates consecutive bars and is NOT subtracted from the width, contrary
to the claim (see the counterexample).  The rectangle variant (highlight
pass off) draws exactly this box; the other variants derive their strokes
from the same box per style (inset edges, dot stacks, time-scaled pulse
height) rather than drawing the plain box. -/
theorem bar_base_box_geometry (pulseF : ℕ → ℤ → ℚ) (sp : StyleParams)
    (w h : ℤ) (n frame_idx i : ℕ) (e : ℚ)
    (hsym : sp.bar_style ≠ "symmetric")
    (hbh : 0 < bar_height_of h e)
    (htop : pyInt (bottom_margin_of h) ≤ y_end_of h - bar_height_of h e)
    (hy0 : 0 ≤ pyInt (bottom_margin_of h))
    (hyh : y_end_of h ≤ h)
    (hxw : bar_x w n i + bar_width w n ≤ w) :
    barOps pulseF sp w h n frame_idx i e
        = bottomAnchoredDraw pulseF sp frame_idx (bar_x w n i)
            (y_end_of h - bar_height_of h e) (y_end_of h)
            (bar_x w n i + bar_width w n) ∧
      (sp.bar_style = "rectangle" → sp.gradient_effect = false →
        barOps pulseF sp w h n frame_idx i e
          = [DrawOp.rect (bar_x w n i, y_end_of h - bar_height_of h e)
              (bar_x w n i + bar_width w n, y_end_of h) sp.bar_color (-1)]) ∧
      bar_width w n = max 1 (Int.fdiv w ((n : ℤ) + 1)) ∧
      spacing w n = max 1 (Int.fdiv w ((n : ℤ) * 2)) ∧
      bar_x w n i = (i : ℤ) * (bar_width w n + spacing w n) + spacing w n ∧
      bar_height_of h e = pyInt (e * ((h : ℚ) * (8/10))) ∧
      y_end_of h = pyInt ((h : ℚ) - (h : ℚ) * (1/10)) := by
  have hbase : barOps pulseF sp w h n frame_idx i e
      = bottomAnchoredDraw pulseF sp frame_idx (bar_x w n i)
          (y_end_of h - bar_height_of h e) (y_end_of h)
          (bar_x w n i + bar_width w n) := by
    simp only [barOps]
    rw [if_pos hbh, if_neg hsym, max_eq_right htop,
      max_eq_right (le_trans hy0 htop), min_eq_right hyh, min_eq_right hxw]
  refine ⟨hbase, ?_, rfl, rfl, rfl, rfl, rfl⟩
  intro hstyle hgrad
  rw [hbase]
  simp only [bottomAnchoredDraw, hstyle]
  simp only [if_true]
  simp only [draw_rectangle_bars, hgrad, if_false]
  simp

/-- Witness for C6: a 4 × 20 frame, 3 bands, band 0 with energy one half,
rectangle style. -/
theorem bar_base_box_geometry_witness :
    spRectSmall.bar_style ≠ "symmetric" ∧
      0 < bar_height_of 20 (1/2) ∧
      pyInt (bottom_margin_of 20) ≤ y_end_of 20 - bar_height_of 20 (1/2) ∧
      0 ≤ pyInt (bottom_margin_of 20) ∧ y_end_of 20 ≤ 20 ∧
      bar_x 4 3 0 + bar_width 4 3 ≤ 4 ∧
      (barOps pulse0 spRectSmall 4 20 3 0 0 (1/2)
          = bottomAnchoredDraw pulse0 spRectSmall 0 (bar_x 4 3 0)
              (y_end_of 20 - bar_height_of 20 (1/2)) (y_end_of 20)
              (bar_x 4 3 0 + bar_width 4 3) ∧
        (spRectSmall.bar_style = "rectangle" → spRectSmall.gradient_effect = false →
          barOps pulse0 spRectSmall 4 20 3 0 0 (1/2)
            = [DrawOp.rect (bar_x 4 3 0, y_end_of 20 - bar_height_of 20 (1/2))
                (bar_x 4 3 0 + bar_width 4 3, y_end_of 20) spRectSmall.bar_color (-1)]) ∧
        bar_width 4 3 = max 1 (Int.fdiv 4 ((3 : ℤ) + 1)) ∧
        spacing 4 3 = max 1 (Int.fdiv 4 ((3 : ℤ) * 2)) ∧
        bar_x 4 3 0 = (0 : ℤ) * (bar_width 4 3 + spacing 4 3) + spacing 4 3 ∧
        bar_height_of 20 (1/2) = pyInt ((1/2) * ((20 : ℚ) * (8/10))) ∧
        y_end_of 20 = pyInt ((20 : ℚ) - (20 : ℚ) * (1/10))) :=
  ⟨by decide,
    by norm_num [bar_height_of, pyInt],
    by norm_num [bar_height_of, bottom_margin_of, y_end_of, pyInt],
    by norm_num [bottom_margin_of, pyInt],
    by norm_num [bottom_margin_of, y_end_of, pyInt],
    by norm_num [bar_x, bar_width, spacing, (by decide : Int.fdiv 4 4 = 1),
      (by decide : Int.fdiv 4 6 = 0)],
    bar_base_box_geometry pulse0 spRectSmall 4 20 3 0 0 (1/2) (by decide)
      (by norm_num [bar_height_of, pyInt])
      (by norm_num [bar_height_of, bottom_margin_of, y_end_of, pyInt])
      (by norm_num [bottom_margin_of, pyInt])
      (by norm_num [bottom_margin_of, y_end_of, pyInt])
      (by norm_num [bar_x, bar_width, spacing, (by decide : Int.fdiv 4 4 = 1),
        (by decide : Int.fdiv 4 6 = 0)])⟩

/-- C6 counterexample: at the default configuration (1280 wide, 64 bands)
band 0 with energy 1 is drawn as the rectangle `(10, 72)-(29, 648)`, i.e.
with width `29 - 10 = 19 = max(1, ⌊1280/65⌋)`; the claimed width
`frame_width/(n_bands+1) - spacing = 1280/65 - 10` (or its floored
variant `19 - 10 = 9`) differs. -/
theorem bar_width_ne_claimed_formula :
    barOps pulse0 spRectangleNoGrad 1280 720 64 0 0 1
        = [DrawOp.rect (10, 72) (29, 648) [0, 255, 0] (-1)] ∧
      ((29 : ℚ) - 10 ≠ (1280 : ℚ) / (64 + 1) - 10) ∧
      ((29 : ℤ) - 10 ≠ Int.fdiv 1280 (64 + 1) - 10) := by
  refine ⟨?_, by norm_num, by decide⟩
  norm_num [barOps, bottomAnchoredDraw, bar_x, bar_width, spacing, bar_height_of,
    bottom_margin_of, y_end_of, highlightOf, draw_rectangle_bars, pyInt, spRectangleNoGrad,
    max_def, min_def,
    (by decide : Int.fdiv 1280 65 = 19), (by decide : Int.fdiv 1280 128 = 10),
    (by decide : ¬ (("rectangle" : String) = "symmetric"))]

/-! ## Orchestrator (`generate_energy_bar_video`, `src/generator.py:294-412`)

The job is modelled as a trace of the observable events it performs:
messages pushed to the progress sink (`progress_callback`), frames written
to the scratch writer, the external mux invocation, and the scratch-file
removal attempt.  Wall-clock figures interpolated into some progress
messages (elapsed seconds, durations, percentages) are elided from the
message texts; messages whose content the source determines (the
zero-duration skip, the caught-exception report, the cleanup warning, the
mux error text) keep their exact f-string shape.  External effects are
parameters: the decoder result, whether the OpenCV writer opens, the mux
process exit code and captured stderr, and the state and outcome of the
final `os.remove`. -/

/-- An observable event of one job. -/
inductive Ev where
  | msg (s : String)
  | frameWritten (i : ℕ)
  | muxRun
  | removeAttempt
deriving DecidableEq

/-- Outcome of the `os.remove(temp_video)` call in the `finally` block:
success, `PermissionError` (the locked-file case the source catches), or
any other `OSError`, carrying its rendered message. -/
inductive RemoveRes where
  | ok
  | permissionDenied
  | otherError (m : String)
deriving DecidableEq

/-- The external world of one job. -/
structure Externals where
  load : Except String (List ℚ)
  writerOpens : Bool
  muxReturncode : ℤ
  muxStderr : String
  tempPath : String
  tempExists : Bool
  removeRes : RemoveRes

/-- Result of the `try` body: the events performed so far, whether the
scratch file name was created (`temp_video in locals()`), and the
message of the exception that escaped the body, if any. -/
structure BodyOut where
  events : List Ev
  tempCreated : Bool
  err : Option String
deriving DecidableEq

/-- The `try` body of `generate_energy_bar_video`
(`src/generator.py:304-402`): load at the fixed `sr=22050`, skip when
`duration_sec == 0`, extract features (`total_frames = features.shape[1]`
with `hop_length = int(sr * (1.0/fps))`), create the scratch file, open
the writer (raising when it cannot be opened), write every frame, run the
external mux and raise `FFmpeg错误: <stderr>` on a non-zero exit. -/
def jobBody (ext : Externals) (sp : StyleParams) (audioName outPath : String) : BodyOut :=
  let e0 := [Ev.msg ("开始处理: " ++ audioName)]
  match ext.load with
  | Except.error m => ⟨e0, false, some m⟩
  | Except.ok y =>
    if y.length = 0 then
      ⟨e0 ++ [Ev.msg ("音频文件 " ++ audioName ++ " 时长为0，跳过。")], false, none⟩
    else
      let tf := total_frames y.length 22050 sp.fps.toNat
      let e2 := e0 ++ [Ev.msg "  音频加载完成", Ev.msg "  特征提取完成"]
      if ext.writerOpens = false then
        ⟨e2, true, some "无法创建视频写入器"⟩
      else
        let e3 := e2 ++ [Ev.msg "  开始生成视频帧..."]
          ++ (List.range tf).map Ev.frameWritten
          ++ [Ev.msg "  视频帧生成完成", Ev.msg "  正在合并音频...", Ev.muxRun]
        if ext.muxReturncode ≠ 0 then
          ⟨e3, true, some ("FFmpeg错误: " ++ ext.muxStderr)⟩
        else
          ⟨e3 ++ [Ev.msg "  音频合并完成", Ev.msg ("成功创建: " ++ outPath)], true, none⟩

/-- Result of the whole job: all events delivered to the progress sink
(side effects that have happened even if the function then raises) and the
message of an uncaught exception when one propagates past the job
boundary. -/
structure RunOut where
  events : List Ev
  uncaught : Option String
deriving DecidableEq

/-- `generate_energy_bar_video` (`src/generator.py:294-412`): run the
body; `except Exception as e` converts any body error into the progress
message `处理 <name> 时发生错误: <e>`; the `finally` block removes the
scratch file when it was created and still exists, catching only
`PermissionError` (downgraded to a warning message) — any other removal
error propagates uncaught. -/
def generate_energy_bar_video (ext : Externals) (sp : StyleParams)
    (audioName outPath : String) : RunOut :=
  let b := jobBody ext sp audioName outPath
  let e1 := b.events ++ (match b.err with
    | some e => [Ev.msg ("处理 " ++ audioName ++ " 时发生错误: " ++ e)]
    | none => [])
  if b.tempCreated && ext.tempExists then
    match ext.removeRes with
    | RemoveRes.ok => ⟨e1 ++ [Ev.removeAttempt], none⟩
    | RemoveRes.permissionDenied =>
        ⟨e1 ++ [Ev.removeAttempt,
          Ev.msg ("无法立即删除临时文件: " ++ ext.tempPath ++ "。可以稍后手动删除。")], none⟩
    | RemoveRes.otherError m => ⟨e1 ++ [Ev.removeAttempt], some m⟩
  else ⟨e1, none⟩

/-- C5 (confirmed): when the decoded signal has duration 0 the job reports
the dedicated zero-duration message and returns at once: no feature
matrix is computed, no frame written, no other error raised and nothing
propagates (`src/generator.py:312-314`).  `EmptySignal` is realized by
this early-return path; per the error design every job error surfaces as
a progress-sink message, and this path produces exactly the empty-signal
message and no other outcome. -/
theorem zero_duration_empty_signal (ext : Externals) (sp : StyleParams)
    (audioName outPath : String) (y : List ℚ)
    (hload : ext.load = Except.ok y) (hlen : y.length = 0) :
    generate_energy_bar_video ext sp audioName outPath
      = ⟨[Ev.msg ("开始处理: " ++ audioName),
          Ev.msg ("音频文件 " ++ audioName ++ " 时长为0，跳过。")], none⟩ := by
  unfold generate_energy_bar_video jobBody
  rw [hload]
  simp [hlen]

/-- Witness for C5: a loaded, empty signal. -/
theorem zero_duration_empty_signal_witness :
    (Externals.mk (Except.ok []) true 0 "" "/tmp/t.mp4" false RemoveRes.ok).load
        = Except.ok ([] : List ℚ) ∧
      ([] : List ℚ).length = 0 ∧
      generate_energy_bar_video
          (Externals.mk (Except.ok []) true 0 "" "/tmp/t.mp4" false RemoveRes.ok)
          spRectangle "a.mp3" "out.mp4"
        = ⟨[Ev.msg "开始处理: a.mp3", Ev.msg "音频文件 a.mp3 时长为0，跳过。"], none⟩ :=
  ⟨rfl, rfl,
    zero_duration_empty_signal _ spRectangle "a.mp3" "out.mp4" [] rfl rfl⟩

/-- C7 (corrected): every error raised by the pipeline stages inside the
`try` body (loading, extraction, rendering, encoding, muxing) is caught at
the job boundary and converted into the progress message
`处理 <name> 时发生错误: <e>`, and such a stage error never itself
propagates — but the claimed unconditional normal return fails: a
non-`PermissionError` failure of the cleanup `os.remove` in the `finally`
block can still propagate past the job boundary after the stage error was
reported (see the counterexample).  The job returns normally whenever
cleanup does not fail that way. -/
theorem job_errors_caught (ext : Externals) (sp : StyleParams)
    (audioName outPath : String) (e : String)
    (herr : (jobBody ext sp audioName outPath).err = some e) :
    Ev.msg ("处理 " ++ audioName ++ " 时发生错误: " ++ e)
        ∈ (generate_energy_bar_video ext sp audioName outPath).events ∧
      (∀ s, (generate_energy_bar_video ext sp audioName outPath).uncaught = some s →
        ext.removeRes = RemoveRes.otherError s) ∧
      ((∀ m, ext.removeRes ≠ RemoveRes.otherError m) →
        (generate_energy_bar_video ext sp audioName outPath).uncaught = none) := by
  simp only [generate_energy_bar_video]
  rw [herr]
  by_cases hc : ((jobBody ext sp audioName outPath).tempCreated && ext.tempExists) = true
  · rw [if_pos hc]
    rcases hr : ext.removeRes with _ | _ | m
    · exact ⟨by simp, fun s hs => by simp at hs, fun _ => rfl⟩
    · exact ⟨by simp, fun s hs => by simp at hs, fun _ => rfl⟩
    · refine ⟨by simp, fun s hs => ?_, fun hno => False.elim (hno m rfl)⟩
      simp only at hs
      rw [Option.some.injEq] at hs
      rw [hs]
  · rw [if_neg hc]
    exact ⟨by simp, fun s hs => by simp at hs, fun _ => rfl⟩

/-- Witness for C7: a job whose mux step fails with exit code 1. -/
theorem job_errors_caught_witness :
    (jobBody (Externals.mk (Except.ok [1]) true 1 "boom" "/tmp/t.mp4" true RemoveRes.ok)
        spRectangle "a.mp3" "out.mp4").err = some "FFmpeg错误: boom" ∧
      (Ev.msg "处理 a.mp3 时发生错误: FFmpeg错误: boom"
          ∈ (generate_energy_bar_video
              (Externals.mk (Except.ok [1]) true 1 "boom" "/tmp/t.mp4" true RemoveRes.ok)
              spRectangle "a.mp3" "out.mp4").events ∧
        (∀ s, (generate_energy_bar_video
              (Externals.mk (Except.ok [1]) true 1 "boom" "/tmp/t.mp4" true RemoveRes.ok)
              spRectangle "a.mp3" "out.mp4").uncaught = some s →
          (Externals.mk (Except.ok [1]) true 1 "boom" "/tmp/t.mp4" true
              RemoveRes.ok).removeRes = RemoveRes.otherError s) ∧
        ((∀ m, (Externals.mk (Except.ok [1]) true 1 "boom" "/tmp/t.mp4" true
              RemoveRes.ok).removeRes ≠ RemoveRes.otherError m) →
          (generate_energy_bar_video
              (Externals.mk (Except.ok [1]) true 1 "boom" "/tmp/t.mp4" true RemoveRes.ok)
              spRectangle "a.mp3" "out.mp4").uncaught = none)) :=
  ⟨by decide, job_errors_caught _ spRectangle "a.mp3" "out.mp4" "FFmpeg错误: boom" (by decide)⟩

/-- C7 counterexample: a job whose muxing stage fails (one of the
enumerated pipeline stages) and whose scratch-file removal then fails
with a non-`PermissionError`: the stage error is caught and reported, yet
the entry point does not return normally — the cleanup exception
propagates past the job boundary to the surrounding batch, because the
`finally` block catches only `PermissionError`
(`src/generator.py:406-412`). -/
theorem stage_error_with_cleanup_failure_propagates :
    (jobBody (Externals.mk (Except.ok [1]) true 1 "x" "/tmp/t.mp4" true
          (RemoveRes.otherError "busy")) spRectangle "a.mp3" "out.mp4").err
        = some "FFmpeg错误: x" ∧
      Ev.msg "处理 a.mp3 时发生错误: FFmpeg错误: x"
        ∈ (generate_energy_bar_video (Externals.mk (Except.ok [1]) true 1 "x" "/tmp/t.mp4"
            true (RemoveRes.otherError "busy")) spRectangle "a.mp3" "out.mp4").events ∧
      (generate_energy_bar_video (Externals.mk (Except.ok [1]) true 1 "x" "/tmp/t.mp4" true
          (RemoveRes.otherError "busy")) spRectangle "a.mp3" "out.mp4").uncaught
        = some "busy" ∧
      some "busy" ≠ (none : Option String) := by
  refine ⟨by decide, by decide, by decide, by decide⟩

/-- C8 counterexample: a job that succeeds end to end, whose scratch file
still exists, and whose `os.remove` fails with an `OSError` that is not a
`PermissionError`: the removal failure propagates uncaught past the job
boundary instead of being downgraded to a warning — the source catches
only `PermissionError` (`src/generator.py:409-412`). -/
theorem cleanup_error_escalates :
    (jobBody (Externals.mk (Except.ok [1]) true 0 "" "/tmp/t.mp4" true
          (RemoveRes.otherError "设备忙")) spRectangle "a.mp3" "out.mp4").err = none ∧
      (generate_energy_bar_video (Externals.mk (Except.ok [1]) true 0 "" "/tmp/t.mp4" true
          (RemoveRes.otherError "设备忙")) spRectangle "a.mp3" "out.mp4").uncaught
        = some "设备忙" := by
  constructor <;> decide

/-- C8 (corrected): on every exit path, if the scratch file was created
and still exists the job attempts to remove it; a `PermissionError` of
that removal (the locked-file case) is downgraded to the warning message
`无法立即删除临时文件: ...` and nothing propagates — but only
`PermissionError` is caught; any other removal error escapes (see the
counterexample). -/
theorem cleanup_attempted_and_permission_downgraded (ext : Externals)
    (sp : StyleParams) (audioName outPath : String) :
    ((jobBody ext sp audioName outPath).tempCreated = true → ext.tempExists = true →
        Ev.removeAttempt ∈ (generate_energy_bar_video ext sp audioName outPath).events) ∧
      (ext.removeRes = RemoveRes.permissionDenied →
        (generate_energy_bar_video ext sp audioName outPath).uncaught = none ∧
          ((jobBody ext sp audioName outPath).tempCreated = true → ext.tempExists = true →
            Ev.msg ("无法立即删除临时文件: " ++ ext.tempPath ++ "。可以稍后手动删除。")
              ∈ (generate_energy_bar_video ext sp audioName outPath).events)) := by
  simp only [generate_energy_bar_video]
  by_cases hc : ((jobBody ext sp audioName outPath).tempCreated && ext.tempExists) = true
  · rw [if_pos hc]
    rcases hr : ext.removeRes with _ | _ | m <;> constructor <;> simp_all
  · rw [if_neg hc]
    constructor
    · intro h1 h2
      rw [h1, h2] at hc
      simp at hc
    · intro hp
      refine ⟨rfl, fun h1 h2 => ?_⟩
      rw [h1, h2] at hc
      simp at hc

/-- Witness for C8: a failed mux whose scratch file is locked — the
warning appears and nothing escapes. -/
theorem cleanup_attempted_and_permission_downgraded_witness :
    ((jobBody (Externals.mk (Except.ok [1]) true 1 "boom" "/tmp/t.mp4" true
            RemoveRes.permissionDenied) spRectangle "a.mp3" "out.mp4").tempCreated = true →
        (Externals.mk (Except.ok [1]) true 1 "boom" "/tmp/t.mp4" true
            RemoveRes.permissionDenied).tempExists = true →
        Ev.removeAttempt
          ∈ (generate_energy_bar_video (Externals.mk (Except.ok [1]) true 1 "boom"
              "/tmp/t.mp4" true RemoveRes.permissionDenied) spRectangle "a.mp3"
              "out.mp4").events) ∧
      ((Externals.mk (Except.ok [1]) true 1 "boom" "/tmp/t.mp4" true
            RemoveRes.permissionDenied).removeRes = RemoveRes.permissionDenied →
        (generate_energy_bar_video (Externals.mk (Except.ok [1]) true 1 "boom" "/tmp/t.mp4"
            true RemoveRes.permissionDenied) spRectangle "a.mp3" "out.mp4").uncaught = none ∧
          ((jobBody (Externals.mk (Except.ok [1]) true 1 "boom" "/tmp/t.mp4" true
              RemoveRes.permissionDenied) spRectangle "a.mp3" "out.mp4").tempCreated = true →
            (Externals.mk (Except.ok [1]) true 1 "boom" "/tmp/t.mp4" true
                RemoveRes.permissionDenied).tempExists = true →
            Ev.msg ("无法立即删除临时文件: " ++ "/tmp/t.mp4" ++ "。可以稍后手动删除。")
              ∈ (generate_energy_bar_video (Externals.mk (Except.ok [1]) true 1 "boom"
                  "/tmp/t.mp4" true RemoveRes.permissionDenied) spRectangle "a.mp3"
                  "out.mp4").events)) :=
  cleanup_attempted_and_permission_downgraded _ spRectangle "a.mp3" "out.mp4"

/-- C9 (corrected): when the external mux process exits non-zero, the step
raises an error whose message is exactly `FFmpeg错误: <captured stderr>`
(`src/generator.py:397-398`) — it carries the diagnostic output but NOT
the exit code, contrary to the claim (see the counterexample). -/
theorem mux_failure_carries_stderr (ext : Externals) (sp : StyleParams)
    (audioName outPath : String) (y : List ℚ)
    (hload : ext.load = Except.ok y) (hlen : y.length ≠ 0)
    (hw : ext.writerOpens = true) (hrc : ext.muxReturncode ≠ 0) :
    (jobBody ext sp audioName outPath).err = some ("FFmpeg错误: " ++ ext.muxStderr) := by
  unfold jobBody
  rw [hload]
  simp [hlen, hw, hrc]

/-- Witness for C9: a mux failing with exit code 1 and stderr `boom`. -/
theorem mux_failure_carries_stderr_witness :
    (Externals.mk (Except.ok [1]) true 1 "boom" "/tmp/t.mp4" true RemoveRes.ok).load
        = Except.ok ([1] : List ℚ) ∧
      ([1] : List ℚ).length ≠ 0 ∧
      (Externals.mk (Except.ok [1]) true 1 "boom" "/tmp/t.mp4" true
          RemoveRes.ok).writerOpens = true ∧
      (Externals.mk (Except.ok [1]) true 1 "boom" "/tmp/t.mp4" true
          RemoveRes.ok).muxReturncode ≠ 0 ∧
      (jobBody (Externals.mk (Except.ok [1]) true 1 "boom" "/tmp/t.mp4" true RemoveRes.ok)
          spRectangle "a.mp3" "out.mp4").err = some ("FFmpeg错误: " ++ "boom") :=
  ⟨rfl, by decide, rfl, by decide,
    mux_failure_carries_stderr _ spRectangle "a.mp3" "out.mp4" [1] rfl (by decide) rfl
      (by decide)⟩

/-- C9 counterexample: two muxes failing with the same captured stderr but
different exit codes (1 and 2) raise the very same error value, so the
error does not carry the exit code. -/
theorem mux_error_not_carrying_exit_code :
    (jobBody (Externals.mk (Except.ok [1]) true 1 "boom" "/tmp/t.mp4" true RemoveRes.ok)
          spRectangle "a.mp3" "out.mp4").err
        = (jobBody (Externals.mk (Except.ok [1]) true 2 "boom" "/tmp/t.mp4" true RemoveRes.ok)
          spRectangle "a.mp3" "out.mp4").err ∧
      (jobBody (Externals.mk (Except.ok [1]) true 1 "boom" "/tmp/t.mp4" true RemoveRes.ok)
          spRectangle "a.mp3" "out.mp4").err = some "FFmpeg错误: boom" ∧
      (Externals.mk (Except.ok [1]) true 1 "boom" "/tmp/t.mp4" true
          RemoveRes.ok).muxReturncode
        ≠ (Externals.mk (Except.ok [1]) true 2 "boom" "/tmp/t.mp4" true
          RemoveRes.ok).muxReturncode := by
  refine ⟨by decide, by decide, by decide⟩

end Generator
